import Mathlib

/-!
# Verification of the filer-api conversion service against its specification

Shallow embedding of `src/main.py` and `src/services/cloudconvert_service.py`.

Conventions used throughout:
* A byte string (Python `bytes`) is a `List Nat`, each entry `< 256`.
* Machine words are `Nat` with explicit reduction `% 2 ^ 32` where Python's
  `hashlib` works with wrapping 32-bit arithmetic.
* Python functions that can raise are embedded as `Except`-valued functions.
* The Python standard library primitives the code calls (`hashlib.sha256`,
  `hmac.new`/`hexdigest`, `str.split`, `dict` lookup) are embedded executably,
  following their documented semantics (FIPS 180-4 / FIPS 198-1 for the hashes).
-/

set_option maxRecDepth 100000

namespace FilerApi

/-! ## Bytes and hex strings -/

/-- Bytes of an ASCII string: for ASCII text the UTF-8 encoding used by
Python's `str.encode("utf-8")` coincides with the code points. -/
def strBytes (s : String) : List Nat := s.data.map Char.toNat

/-- Lowercase hex digit, as produced by Python's `hexdigest()`. -/
def hexChar (n : Nat) : Char := if n < 10 then Char.ofNat (48 + n) else Char.ofNat (87 + n)

/-- Lowercase hex rendering of a byte string (Python `hexdigest()`). -/
def hexDigest (bs : List Nat) : String :=
  String.mk (bs.foldr (fun b acc => hexChar (b / 16) :: hexChar (b % 16) :: acc) [])

/-! ## SHA-256 (FIPS 180-4), the digest `hashlib.sha256` computes -/

/-- Truncate to a 32-bit word. -/
def w32 (x : Nat) : Nat := x % 4294967296

/-- Right rotation of a 32-bit word. -/
def rotr32 (n x : Nat) : Nat := w32 ((x >>> n) ||| (x <<< (32 - n)))

/-- `Ch(x,y,z)`; `¬x` is `x XOR 0xffffffff` on 32-bit words. -/
def ch32 (x y z : Nat) : Nat := Nat.xor (Nat.land x y) (Nat.land (Nat.xor x 4294967295) z)

/-- `Maj(x,y,z)`. -/
def maj32 (x y z : Nat) : Nat :=
  Nat.xor (Nat.xor (Nat.land x y) (Nat.land x z)) (Nat.land y z)

/-- Big sigma 0. -/
def bSig0 (x : Nat) : Nat := Nat.xor (Nat.xor (rotr32 2 x) (rotr32 13 x)) (rotr32 22 x)

/-- Big sigma 1. -/
def bSig1 (x : Nat) : Nat := Nat.xor (Nat.xor (rotr32 6 x) (rotr32 11 x)) (rotr32 25 x)

/-- Small sigma 0. -/
def sSig0 (x : Nat) : Nat := Nat.xor (Nat.xor (rotr32 7 x) (rotr32 18 x)) (x >>> 3)

/-- Small sigma 1. -/
def sSig1 (x : Nat) : Nat := Nat.xor (Nat.xor (rotr32 17 x) (rotr32 19 x)) (x >>> 10)

/-- The 64 round constants: fractional parts of the cube roots of the first
64 primes, scaled by `2 ^ 32` (FIPS 180-4 section 4.2.2), written in decimal. -/
def roundConsts : List Nat :=
  [1116352408, 1899447441, 3049323471, 3921009573, 961987163, 1508970993,
   2453635748, 2870763221, 3624381080, 310598401, 607225278, 1426881987,
   1925078388, 2162078206, 2614888103, 3248222580, 3835390401, 4022224774,
   264347078, 604807628, 770255983, 1249150122, 1555081692, 1996064986,
   2554220882, 2821834349, 2952996808, 3210313671, 3336571891, 3584528711,
   113926993, 338241895, 666307205, 773529912, 1294757372, 1396182291,
   1695183700, 1986661051, 2177026350, 2456956037, 2730485921, 2820302411,
   3259730800, 3345764771, 3516065817, 3600352804, 4094571909, 275423344,
   430227734, 506948616, 659060556, 883997877, 958139571, 1322822218,
   1537002063, 1747873779, 1955562222, 2024104815, 2227730452, 2361852424,
   2428436474, 2756734187, 3204031479, 3329325298]

/-- Working state of the compression function: eight 32-bit words. -/
structure Digest8 where
  a : Nat
  b : Nat
  c : Nat
  d : Nat
  e : Nat
  f : Nat
  g : Nat
  h : Nat
deriving Repr, DecidableEq

/-- Initial hash value: fractional parts of the square roots of the first
eight primes, scaled by `2 ^ 32` (FIPS 180-4 section 5.3.3), in decimal. -/
def initState : Digest8 :=
  ⟨1779033703, 3144134277, 1013904242, 2773480762,
   1359893119, 2600822924, 528734635, 1541459225⟩

/-- FIPS 180-4 section 5.1.1 padding: `0x80`, zeros to 56 mod 64 bytes, then
the bit length as eight big-endian bytes. -/
def padMessage (msg : List Nat) : List Nat :=
  let len := msg.length
  let zeros := (119 - len % 64) % 64
  let bitLen := 8 * len
  msg ++ [128] ++ List.replicate zeros 0 ++
    (List.range 8).map (fun i => (bitLen >>> (8 * (7 - i))) % 256)

/-- Four big-endian bytes to one 32-bit word; incomplete tails are dropped
(padding guarantees a multiple of four). -/
def toWords : List Nat → List Nat
  | a :: b :: c :: d :: rest => (((a * 256 + b) * 256 + c) * 256 + d) :: toWords rest
  | _ => []

/-- Split a word list into 16-word blocks; padding guarantees the length is a
multiple of 16, so the catch-all never fires on padded input. -/
def toBlocks : List Nat → List (List Nat)
  | w0 :: w1 :: w2 :: w3 :: w4 :: w5 :: w6 :: w7 ::
    w8 :: w9 :: w10 :: w11 :: w12 :: w13 :: w14 :: w15 :: rest =>
    [w0, w1, w2, w3, w4, w5, w6, w7, w8, w9, w10, w11, w12, w13, w14, w15] :: toBlocks rest
  | _ => []

/-- Extend a 16-word block by `n` schedule words (FIPS 180-4 section 6.2.2). -/
def extendSchedule (ws : List Nat) : Nat → List Nat
  | 0 => ws
  | n + 1 =>
    let cur := extendSchedule ws n
    let len := cur.length
    cur ++ [w32 (sSig1 (cur.getD (len - 2) 0) + cur.getD (len - 7) 0 +
                 sSig0 (cur.getD (len - 15) 0) + cur.getD (len - 16) 0)]

/-- One round of the compression function. -/
def shaRound (s : Digest8) (wi ki : Nat) : Digest8 :=
  let t1 := w32 (s.h + bSig1 s.e + ch32 s.e s.f s.g + ki + wi)
  let t2 := w32 (bSig0 s.a + maj32 s.a s.b s.c)
  ⟨w32 (t1 + t2), s.a, s.b, s.c, w32 (s.d + t1), s.e, s.f, s.g⟩

/-- Compress one 16-word block into the running state. -/
def compressBlock (s : Digest8) (block : List Nat) : Digest8 :=
  let ws := extendSchedule block 48
  let r := (ws.zip roundConsts).foldl (fun st p => shaRound st p.1 p.2) s
  ⟨w32 (s.a + r.a), w32 (s.b + r.b), w32 (s.c + r.c), w32 (s.d + r.d),
   w32 (s.e + r.e), w32 (s.f + r.f), w32 (s.g + r.g), w32 (s.h + r.h)⟩

/-- Big-endian bytes of one 32-bit word. -/
def wordBytes (w : Nat) : List Nat :=
  [(w >>> 24) % 256, (w >>> 16) % 256, (w >>> 8) % 256, w % 256]

/-- Serialize the final state to the 32 digest bytes. -/
def digestBytes (s : Digest8) : List Nat :=
  wordBytes s.a ++ wordBytes s.b ++ wordBytes s.c ++ wordBytes s.d ++
  wordBytes s.e ++ wordBytes s.f ++ wordBytes s.g ++ wordBytes s.h

/-- SHA-256 of a byte string. -/
def sha256 (msg : List Nat) : List Nat :=
  digestBytes ((toBlocks (toWords (padMessage msg))).foldl compressBlock initState)

/-! ## HMAC-SHA256 (FIPS 198-1), as computed by `hmac.new(..., hashlib.sha256)` -/

/-- The key, hashed if longer than the 64-byte block, zero-padded to 64 bytes. -/
def hmacKeyBlock (key : List Nat) : List Nat :=
  let k0 := if key.length > 64 then sha256 key else key
  k0 ++ List.replicate (64 - k0.length) 0

/-- HMAC-SHA256 digest bytes of `msg` under `key`. -/
def hmacSha256 (key msg : List Nat) : List Nat :=
  let kb := hmacKeyBlock key
  sha256 ((kb.map (Nat.xor · 92)) ++ sha256 ((kb.map (Nat.xor · 54)) ++ msg))

/-- What `hmac.new(secret, msg=payload, digestmod=hashlib.sha256).hexdigest()`
returns: the lowercase hex HMAC-SHA256 digest. -/
def hmacHex (key msg : List Nat) : String := hexDigest (hmacSha256 key msg)

/-- FIPS 180-4 test vector: SHA-256 of "abc". -/
theorem sha256_test_vector_abc :
    hexDigest (sha256 (strBytes "abc")) =
      "ba7816bf8f01cfea414140de5dae2223b00361a396177a9cb410ff61f20015ad" := by
  decide

/-- SHA-256 of the empty byte string. -/
theorem sha256_test_vector_empty :
    hexDigest (sha256 []) =
      "e3b0c44298fc1c149afbf4c8996fb92427ae41e4649b934ca495991b7852b855" := by
  decide

/-- HMAC-SHA256 test vector, secret "secret", message "hello". -/
theorem hmac_test_vector :
    hmacHex (strBytes "secret") (strBytes "hello") =
      "88aab3ede8d3adf94d26ab90d3bafd4a2083070c3bcce9c014ee04a443847c0b" := by
  decide

/-! ## Python string and dict primitives used by `main.py` -/

/-- Python `str.split` on a single-character separator, over the character
list: splitting the empty string gives one empty segment, and separators at
the edges yield empty segments, exactly as in Python. -/
def splitChars (sep : Char) : List Char → List (List Char)
  | [] => [[]]
  | c :: rest =>
    match splitChars sep rest with
    | g :: gs => if c = sep then [] :: g :: gs else (c :: g) :: gs
    | [] => [[c]]

/-- Python `s.split(sep)` for a one-character `sep`. -/
def pySplit (sep : Char) (s : String) : List String :=
  (splitChars sep s.data).map (fun l => String.mk l)

/-- Lookup in an association list with Python `dict` semantics: a `dict` built
from a list of pairs keeps the LAST value for a duplicated key, and `.get`
returns `None` when the key is absent. -/
def dictGet {α : Type} (ps : List (String × α)) (k : String) : Option α :=
  match ps with
  | [] => none
  | p :: rest =>
    match dictGet rest k with
    | some v => some v
    | none => if p.1 = k then some p.2 else none

/-! ## `verify_signature` (src/main.py lines 43-73) -/

/-- An `HTTPException(status_code=..., detail=...)`. -/
structure HttpError where
  status : Nat
  detail : String
deriving Repr, DecidableEq

/-- The dict comprehension
`{k: v for k, v in [x.split("=") for x in signature_header.split(",")]}`:
every comma-separated chunk must split on `=` into exactly two parts,
otherwise unpacking raises `ValueError` (carried as `.error`). -/
def parsePairs (header : String) : Except String (List (String × String)) :=
  (pySplit ',' header).mapM (fun x =>
    match pySplit '=' x with
    | [k, v] => .ok (k, v)
    | [_] => .error "not enough values to unpack (expected 2, got 1)"
    | _ => .error "too many values to unpack (expected 2)")

/-- `verify_signature(payload, signature_header)`.  `secret` models
`WEBHOOK_SECRET.encode("utf-8")`; the header is `none` when absent.  Each
`HTTPException` raised inside the `try` block is itself caught by
`except Exception` and re-raised with detail
`"Signature verification failed: " + str(e)` (for an `HTTPException`,
`str(e)` is `"403: <detail>"`), so every rejection is a 403.  The
constant-time `hmac.compare_digest` on ASCII strings is string equality
(a non-ASCII `v1` raises `TypeError`, caught by the same handler; both
collapse to the mismatch rejection). -/
def verify_signature (secret payload : List Nat) (signature_header : Option String) :
    Except HttpError Unit :=
  match signature_header with
  | none => .error ⟨403, "No signature header"⟩
  | some h =>
    if h = "" then .error ⟨403, "No signature header"⟩
    else
      match parsePairs h with
      | .error e => .error ⟨403, "Signature verification failed: " ++ e⟩
      | .ok parts =>
        match dictGet parts "v1" with
        | none =>
          .error ⟨403, "Signature verification failed: 403: Invalid signature header format"⟩
        | some signature =>
          if signature = "" then
            .error ⟨403, "Signature verification failed: 403: Invalid signature header format"⟩
          else if hmacHex secret payload = signature then .ok ()
          else .error ⟨403, "Signature verification failed: 403: Invalid signature"⟩

/-! ## JSON values, as produced by Python `json.loads` -/

/-- A parsed JSON value.  Numbers are integers here: no payload field the code
inspects is fractional, and nothing below depends on float semantics. -/
inductive JVal where
  | jnull
  | jbool (b : Bool)
  | jnum (n : Int)
  | jstr (s : String)
  | jarr (elems : List JVal)
  | jobj (fields : List (String × JVal))
deriving Repr

/-- Python truthiness of a parsed JSON value (`if not x`). -/
def JVal.isFalsy : JVal → Bool
  | .jnull => true
  | .jbool b => !b
  | .jnum n => n = 0
  | .jstr s => s = ""
  | .jarr es => es.isEmpty
  | .jobj fs => fs.isEmpty

/-- `v.get(k)`: dict lookup returning `None` when absent; on a non-dict,
Python raises `AttributeError`. -/
def pyGet (v : JVal) (k : String) : Except String (Option JVal) :=
  match v with
  | .jobj fs => .ok (dictGet fs k)
  | _ => .error "AttributeError: object has no attribute get"

/-- `iter(v)`: lists yield elements, dicts their keys, strings their
characters; other values raise `TypeError`. -/
def pyIter : JVal → Except String (List JVal)
  | .jarr es => .ok es
  | .jobj fs => .ok (fs.map (fun p => JVal.jstr p.1))
  | .jstr s => .ok (s.data.map (fun c => JVal.jstr (String.mk [c])))
  | _ => .error "TypeError: object is not iterable"

/-- `v[0]`. -/
def pyIndex0 : JVal → Except String JVal
  | .jarr (e :: _) => .ok e
  | .jarr [] => .error "IndexError: list index out of range"
  | .jstr s =>
    match s.data with
    | c :: _ => .ok (.jstr (String.mk [c]))
    | [] => .error "IndexError: string index out of range"
  | .jobj _ => .error "KeyError: 0"
  | _ => .error "TypeError: object is not subscriptable"

/-- `v[k]` for a string key: `KeyError` when absent, `TypeError` on
non-dicts. -/
def pySubscript (v : JVal) (k : String) : Except String JVal :=
  match v with
  | .jobj fs =>
    match dictGet fs k with
    | some x => .ok x
    | none => .error ("KeyError: " ++ k)
  | _ => .error "TypeError: object is not subscriptable"

/-! ## Job registry (the module-level `jobs = {}` dict) -/

/-- One record of the in-memory `jobs` dict.  `convert_file` creates it with
the first three fields; the webhook handler may add `output` (a path string)
and `message` (an arbitrary payload-provided JSON value, or a constructed
string). -/
structure JobRec where
  status : String
  progress : Nat
  filename : String
  output : Option String := none
  message : Option JVal := none
deriving Repr

/-- The `jobs` dict: insertion-ordered string-keyed map. -/
abbrev Registry := List (String × JobRec)

/-- `jobs[k] = v`: update in place when the key exists, append otherwise. -/
def rset (r : Registry) (k : String) (v : JobRec) : Registry :=
  if (dictGet r k).isSome then
    r.map (fun p => if p.1 = k then (k, v) else p)
  else r ++ [(k, v)]

/-! ## `CloudConvertService.extract_download_url` (src/services/cloudconvert_service.py) -/

/-- The generator inside
`next((t for t in tasks if t.get("operation") == "export/url" and t.get("status") == "finished"), None)`:
conditions are evaluated left to right, lazily, and a `.get` on a non-dict
element raises. -/
def findExport : List JVal → Except String (Option JVal)
  | [] => .ok none
  | t :: rest => do
    let op ← pyGet t "operation"
    let isExport : Bool := match op with | some (.jstr s) => s == "export/url" | _ => false
    if isExport then
      let st ← pyGet t "status"
      let isFin : Bool := match st with | some (.jstr s) => s == "finished" | _ => false
      if isFin then pure (some t) else findExport rest
    else findExport rest

/-- `extract_download_url(job_data)`: locate the finished export task and
return the `url` and `filename` values of its first result file.  All Python
exceptions on malformed shapes (`ValueError` raised by the function itself,
`AttributeError`, `KeyError`, `IndexError`, `TypeError`) are `.error`. -/
def extract_download_url (job_data : JVal) : Except String (JVal × JVal) := do
  let tasksField ← pyGet job_data "tasks"
  let ts ← pyIter (tasksField.getD (.jarr []))
  let export_task ← findExport ts
  match export_task with
  | none => .error "No finished export task found in job data"
  | some t => do
    let resField ← pyGet t "result"
    let filesField ← pyGet (resField.getD (.jobj [])) "files"
    let result_files := filesField.getD (.jarr [])
    if result_files.isFalsy then .error "No files found in export task result"
    else do
      let file_info ← pyIndex0 result_files
      let url ← pySubscript file_info "url"
      let filename ← pySubscript file_info "filename"
      pure (url, filename)

/-- The body of the `try` block in the `job.finished` branch after extraction:
`httpx` GET of the url plus `raise_for_status` and the local file write are
the `fetch` oracle (`.error` = any failure of download or write); a non-string
url makes `httpx` raise before any request, and a non-string filename makes
the path join raise after the download.  On success the handler records
`str(OUTPUT_DIR / filename)`, i.e. `"outputs/" ++ filename`. -/
def finished_step (job_data : JVal) (fetch : String → Except String Unit) :
    Except String String := do
  let (urlV, filenameV) ← extract_download_url job_data
  match urlV with
  | .jstr url => do
    fetch url
    match filenameV with
    | .jstr filename => pure ("outputs/" ++ filename)
    | _ => .error "TypeError: unsupported operand type for path join"
  | _ => .error "TypeError: invalid url type"

/-! ## The webhook handler `cloudconvert_webhook` (src/main.py lines 133-191) -/

/-- The value `payload.get("event")` as compared against the string constants
`"job.finished"` and `"job.failed"`: Python `==` between a string constant
and a non-string (or `None`) is `False`, so only a string event value can
select a branch. -/
def eventName (fields : List (String × JVal)) : Option String :=
  match dictGet fields "event" with
  | some (.jstr s) => some s
  | _ => none

/-- Outcome of one webhook delivery.  Both `return {"ok": True}` and
`JSONResponse(status_code=200, content={"ok": True})` are 200 responses with
body `ok: true`, collapsed to `ok200`; `httpError` is a raised
`HTTPException`; `serverError` is an unhandled Python exception surfacing as
a 500. -/
inductive WebhookResult where
  | ok200
  | httpError (e : HttpError)
  | serverError (detail : String)
deriving Repr, DecidableEq

/-- The `POST /webhook/cloudconvert` handler.  Inputs: `secret` models
`WEBHOOK_SECRET.encode("utf-8")`; `body` the raw request body bytes; `parsed`
the outcome of `await request.json()` (`none` when the body is not valid
JSON); `header` the `CloudConvert-Signature` header; `fetch` the outbound
download oracle; `jobs` the registry.  Returns the response and the registry
after the delivery.

Mirrored control flow, in source order: (1) the body is parsed BEFORE
signature verification, and the `except json.JSONDecodeError` clause
references the name `json`, never imported in `main.py`, so a parse failure
raises an unhandled `NameError` (500); (2) `verify_signature`;
(3) `payload.get("job", {}).get("id")`, where a non-dict payload or non-dict
`job` value raises `AttributeError` (500); a falsy id returns ok; a
non-string hashable id is never a key of `jobs`, so it is treated as unknown;
an unhashable id (list or dict) raises `TypeError` in `job_id not in jobs`
(500); (4) dispatch on `payload.get("event")`; the final `else` branch is
`pass`. -/
def cloudconvert_webhook (secret body : List Nat) (parsed : Option JVal)
    (header : Option String) (fetch : String → Except String Unit)
    (jobs : Registry) : WebhookResult × Registry :=
  match parsed with
  | none => (.serverError "NameError: name json is not defined", jobs)
  | some payload =>
    match verify_signature secret body header with
    | .error e => (.httpError e, jobs)
    | .ok _ =>
      match payload with
      | .jobj fields =>
        match (dictGet fields "job").getD (.jobj []) with
        | .jobj jfields =>
          let job_id := (dictGet jfields "id").getD .jnull
          if job_id.isFalsy then (.ok200, jobs)
          else
            match job_id with
            | .jstr jid =>
              match dictGet jobs jid with
              | none => (.ok200, jobs)
              | some rec =>
                let event := eventName fields
                if event = some "job.finished" then
                  match finished_step (.jobj jfields) fetch with
                  | .ok output_path =>
                    (.ok200, rset jobs jid
                      { rec with status := "finished", progress := 100,
                                 output := some output_path })
                  | .error msg =>
                    (.ok200, rset jobs jid
                      { rec with status := "failed",
                                 message := some (.jstr ("Download failed: " ++ msg)) })
                else if event = some "job.failed" then
                  (.ok200, rset jobs jid
                    { rec with status := "failed", progress := 100,
                               message := some ((dictGet jfields "message").getD
                                 (.jstr "Unknown error")) })
                else (.ok200, jobs)
            | .jarr _ => (.serverError "TypeError: unhashable type list", jobs)
            | .jobj _ => (.serverError "TypeError: unhashable type dict", jobs)
            | _ => (.ok200, jobs)
        | _ => (.serverError "AttributeError: object has no attribute get", jobs)
      | _ => (.serverError "AttributeError: object has no attribute get", jobs)

/-! ## `validate_file` and `convert_file` (src/main.py lines 76-121) -/

/-- ASCII lowercasing of one character. -/
def lowerChar (c : Char) : Char :=
  if 65 ≤ c.toNat ∧ c.toNat ≤ 90 then Char.ofNat (c.toNat + 32) else c

/-- Python `str.lower()` on the ASCII range; every extension in the
allow-list is ASCII, so on the strings compared against it this coincides
with Python's Unicode lowercasing. -/
def pyLower (s : String) : String := String.mk (s.data.map lowerChar)

/-- The module-level allow-list. -/
def ALLOWED_EXTENSIONS : List String :=
  ["pdf", "docx", "doc", "png", "jpg", "jpeg", "mp4", "mp3"]

/-- `validate_file`: the extension is the LAST `"."`-separated segment of the
filename, lowercased (`file.filename.split(".")[-1].lower()`); then the size
ceiling.  Python compares `size / (1024 * 1024) > MAX_FILE_SIZE_MB` in
floats; division of an integer below `2 ^ 53` by the power of two
`1024 * 1024` is exact, so the comparison equals the integer comparison
`sizeBytes > maxMB * 1048576`. -/
def validate_file (filename : String) (sizeBytes : Nat) (maxMB : Nat) :
    Except HttpError Unit :=
  let ext := pyLower ((pySplit '.' filename).getLastD "")
  if ext ∉ ALLOWED_EXTENSIONS then .error ⟨400, "Unsupported file type"⟩
  else if sizeBytes > maxMB * 1048576 then
    .error ⟨400, "File too large"⟩
  else .ok ()

/-- Response of `POST /convert`. -/
inductive ConvertResult where
  | accepted (job_id : String)
  | clientError (e : HttpError)
  | serverError (detail : String)
deriving Repr, DecidableEq

/-- Which side effects the upload handler performed: the local write
`open(input_path, "wb")` and the outbound `service.create_job` call. -/
structure ConvertEffects where
  wroteInput : Bool
  calledCollaborator : Bool
deriving Repr, DecidableEq

/-- The `POST /convert` handler.  `create_job` is the collaborator oracle:
`.ok id` a successful submission returning the issued job id, `.error` any
exception out of `service.create_job` (network, auth, malformed response). -/
def convert_file (filename : String) (sizeBytes : Nat) (maxMB : Nat)
    (create_job : Except String String) (jobs : Registry) :
    ConvertResult × ConvertEffects × Registry :=
  match validate_file filename sizeBytes maxMB with
  | .error e => (.clientError e, ⟨false, false⟩, jobs)
  | .ok _ =>
    match create_job with
    | .error msg => (.serverError ("Failed to create job: " ++ msg), ⟨true, true⟩, jobs)
    | .ok job_id =>
      (.accepted job_id, ⟨true, true⟩,
       rset jobs job_id { status := "processing", progress := 0, filename := filename })

/-! ## `get_progress` and `download` (src/main.py lines 124-130 and 194-207) -/

/-- Response of `GET /progress/{job_id}`. -/
inductive ProgressResult where
  | ok (status : String) (progress : Nat)
  | notFound
deriving Repr, DecidableEq

/-- The `GET /progress/{job_id}` handler. -/
def get_progress (jobs : Registry) (job_id : String) : ProgressResult :=
  match dictGet jobs job_id with
  | none => .notFound
  | some job => .ok job.status job.progress

/-- Response of `GET /download/{job_id}`. -/
inductive DownloadResult where
  | fileResponse (path : String) (suggestedName : String)
  | notFound (detail : String)
deriving Repr, DecidableEq

/-- `pathlib.Path(p).name` for the slash-joined paths this system builds. -/
def pathName (p : String) : String := (pySplit '/' p).getLastD ""

/-- The `GET /download/{job_id}` handler; `fsExists` models
`Path.exists()` on local storage at request time. -/
def download (jobs : Registry) (fsExists : String → Bool) (job_id : String) :
    DownloadResult :=
  match dictGet jobs job_id with
  | none => .notFound "File not ready"
  | some job =>
    if job.status ≠ "finished" then .notFound "File not ready"
    else
      let output_path := job.output.getD ""
      if fsExists output_path then .fileResponse output_path (pathName output_path)
      else .notFound "File not found on disk"

/-! ## Traces of operations over the shared registry -/

/-- One state-affecting request: an upload (with its collaborator oracle) or a
webhook delivery (with its raw body, parse outcome, header and download
oracle).  Status and download requests are read-only and need not appear. -/
inductive Op where
  | upload (filename : String) (sizeBytes : Nat) (create_job : Except String String)
  | webhook (body : List Nat) (parsed : Option JVal) (header : Option String)
      (fetch : String → Except String Unit)

/-- Registry after one operation. -/
def step (maxMB : Nat) (secret : List Nat) (r : Registry) : Op → Registry
  | .upload filename sizeBytes create_job =>
    (convert_file filename sizeBytes maxMB create_job r).2.2
  | .webhook body parsed header fetch =>
    (cloudconvert_webhook secret body parsed header fetch r).2

/-- Registry after a sequence of operations. -/
def run (maxMB : Nat) (secret : List Nat) (r : Registry) : List Op → Registry
  | [] => r
  | op :: ops => run maxMB secret (step maxMB secret r op) ops

/-- Every upload in the trace that reaches the collaborator is issued a job id
not already present in the registry at that moment (the external service
issues unique ids). -/
def FreshTrace (maxMB : Nat) (secret : List Nat) : Registry → List Op → Prop
  | _, [] => True
  | r, op :: ops =>
    (match op with
     | .upload _ _ create_job =>
       match create_job with
       | .ok j => dictGet r j = none
       | .error _ => True
     | _ => True) ∧ FreshTrace maxMB secret (step maxMB secret r op) ops

/-! ## Concrete fixtures for witnesses and counterexamples

Each webhook body below is the exact ASCII serialization of the `JVal`
payload next to it, and each header carries the true `v1` HMAC hex of that
body under the shared secret `"whsec"`. -/

/-- The shared webhook secret of the examples, `"whsec".encode("utf-8")`. -/
def wSecret : List Nat := strBytes "whsec"

/-- A registry holding the single job `"J1"` as `convert_file` creates it. -/
def regJ1 : Registry := [("J1", { status := "processing", progress := 0, filename := "a.pdf" })]

def bodyHello : List Nat := strBytes "hello"

def headerHello : String :=
  "t=1,v1=bbdb60c6d3c3026568e921e91f6bac1813c06ac8c9317a997c4b67c067f47048"

/-- `"whseb"`: the secret `"whsec"` with one bit of its last byte flipped
(`0x63` to `0x62`). -/
def wSecretFlipped : List Nat := strBytes "whseb"

def bodyFailed : List Nat :=
  strBytes "\x7b\"event\":\"job.failed\",\"job\":\x7b\"id\":\"J1\",\"message\":\"boom\"\x7d\x7d"

def payloadFailed : JVal :=
  .jobj [("event", .jstr "job.failed"),
         ("job", .jobj [("id", .jstr "J1"), ("message", .jstr "boom")])]

def headerFailed : String :=
  "t=1,v1=1bad12076e1621a8890ebd3bfaec8aa30665df48a6499647a494924e5c5c90ea"

def bodyFinished : List Nat :=
  strBytes ("\x7b\"event\":\"job.finished\",\"job\":\x7b\"id\":\"J1\",\"tasks\":[\x7b\"operation\":\"export/url\",\"status\":\"finished\",\"result\":\x7b\"files\":[\x7b\"url\":\"http://dl/x.pdf\",\"filename\":\"x.pdf\"\x7d]\x7d\x7d]\x7d\x7d")

def finishedJobFields : List (String × JVal) :=
  [("id", .jstr "J1"),
   ("tasks", .jarr [.jobj
     [("operation", .jstr "export/url"),
      ("status", .jstr "finished"),
      ("result", .jobj [("files", .jarr [.jobj
        [("url", .jstr "http://dl/x.pdf"), ("filename", .jstr "x.pdf")]])])]])]

def payloadFinished : JVal :=
  .jobj [("event", .jstr "job.finished"), ("job", .jobj finishedJobFields)]

def headerFinished : String :=
  "t=1,v1=8e7d0f38edd3d9c9217ee620e2368b0902bebec9e520f46ddb3513598d3e6100"

def bodyProgress : List Nat :=
  strBytes "\x7b\"event\":\"task.progress\",\"job\":\x7b\"id\":\"J1\",\"progress\":55\x7d\x7d"

def progressJobFields : List (String × JVal) := [("id", .jstr "J1"), ("progress", .jnum 55)]

def payloadProgress : JVal :=
  .jobj [("event", .jstr "task.progress"), ("job", .jobj progressJobFields)]

def headerProgress : String :=
  "t=1,v1=4d80e3e98d7012d5a53896acecf193f9f78ec2c091f6ae44b9619754d758c0b4"

def bodyUnknown : List Nat :=
  strBytes "\x7b\"event\":\"job.finished\",\"job\":\x7b\"id\":\"ghost\"\x7d\x7d"

def payloadUnknown : JVal :=
  .jobj [("event", .jstr "job.finished"), ("job", .jobj [("id", .jstr "ghost")])]

def headerUnknown : String :=
  "t=1,v1=eb0d36215b9049f865838602fcae431ef631773fc83a92212244f2e724e762b4"

def bodyBadTasks : List Nat :=
  strBytes "\x7b\"event\":\"job.finished\",\"job\":\x7b\"id\":\"J1\",\"tasks\":[]\x7d\x7d"

def badTasksJobFields : List (String × JVal) := [("id", .jstr "J1"), ("tasks", .jarr [])]

def payloadBadTasks : JVal :=
  .jobj [("event", .jstr "job.finished"), ("job", .jobj badTasksJobFields)]

def headerBadTasks : String :=
  "t=1,v1=7991e158a78102aff082fc3f0a431d95f4de78e25f86e696c9677bb42fbcab45"

/-- A download oracle that always succeeds. -/
def fetchOk : String → Except String Unit := fun _ => .ok ()

/-! ## Helper lemmas about `verify_signature` -/

/-- A hex digest of a nonempty byte string is nonempty. -/
theorem hexDigest_cons_ne_empty (b : Nat) (bs : List Nat) : hexDigest (b :: bs) ≠ "" := by
  simp [hexDigest, String.ext_iff]

/-- The HMAC hex digest is never the empty string (its 32 digest bytes yield
64 hex characters), so the `if not signature` falsy test never discards a
correct digest. -/
theorem hmacHex_ne_empty (key msg : List Nat) : hmacHex key msg ≠ "" := by
  simp [hmacHex, hmacSha256, sha256, digestBytes, wordBytes, hexDigest, String.ext_iff]

/-- Characterization of acceptance: `verify_signature` succeeds exactly when
the header parses into key-value pairs whose `v1` entry is the HMAC hex of
the body under the secret. -/
theorem verify_ok_iff (secret body : List Nat) (h : String) :
    verify_signature secret body (some h) = .ok () ↔
      ∃ ps, parsePairs h = .ok ps ∧ dictGet ps "v1" = some (hmacHex secret body) := by
  constructor
  · intro hok
    simp only [verify_signature] at hok
    split at hok
    · cases hok
    · rcases hps : parsePairs h with pe | ps
      · simp [hps] at hok
      · simp only [hps] at hok
        rcases hv1 : dictGet ps "v1" with _ | sig
        · simp [hv1] at hok
        · simp only [hv1] at hok
          split at hok
          · cases hok
          · split at hok
            · next heq => exact ⟨ps, rfl, by rw [hv1, heq]⟩
            · cases hok
  · rintro ⟨ps, hps, hv1⟩
    have hne : h ≠ "" := by
      intro he
      rw [he] at hps
      rw [show parsePairs "" =
            Except.error "not enough values to unpack (expected 2, got 1)" from rfl] at hps
      cases hps
    simp only [verify_signature]
    simp [hne, hps, hv1, hmacHex_ne_empty secret body]

/-- Every rejection of `verify_signature` carries status 403. -/
theorem verify_error_403 (secret body : List Nat) (header : Option String) (e : HttpError)
    (herr : verify_signature secret body header = .error e) : e.status = 403 := by
  rcases header with _ | h
  · injection herr with h1
    rw [← h1]
  · simp only [verify_signature] at herr
    split at herr
    · injection herr with h1; rw [← h1]
    · rcases hps : parsePairs h with pe | ps
      · simp only [hps] at herr
        injection herr with h1; rw [← h1]
      · simp only [hps] at herr
        rcases hv1 : dictGet ps "v1" with _ | sig
        · simp only [hv1] at herr
          injection herr with h1; rw [← h1]
        · simp only [hv1] at herr
          split at herr
          · injection herr with h1; rw [← h1]
          · split at herr
            · cases herr
            · injection herr with h1; rw [← h1]

/-- C1: `verify_signature` accepts exactly when the signature header parses
into comma-separated key=value pairs whose `v1` entry equals the lowercase
hex HMAC-SHA256 digest of the raw body bytes under the secret; an absent
header is rejected; every rejection is an `HTTPException` with status 403
(the model's only failure mode, faithful to the catch-all `except` that
re-wraps any internal error as a 403); and any mutation of body or secret
that changes the digest (in particular any single-bit mutation, the digests
being unequal) turns a previously accepted header into a 403 rejection. -/
theorem C1_verify_signature_spec (secret body : List Nat) :
    (∀ h : String,
        verify_signature secret body (some h) = .ok () ↔
          ∃ ps, parsePairs h = .ok ps ∧ dictGet ps "v1" = some (hmacHex secret body))
    ∧ (verify_signature secret body none = .error ⟨403, "No signature header"⟩)
    ∧ (∀ (header : Option String) (e : HttpError),
        verify_signature secret body header = .error e → e.status = 403)
    ∧ (∀ (secret2 body2 : List Nat) (h : String),
        hmacHex secret2 body2 ≠ hmacHex secret body →
        verify_signature secret body (some h) = .ok () →
        ∃ e, verify_signature secret2 body2 (some h) = .error e ∧ e.status = 403) := by
  refine ⟨verify_ok_iff secret body, rfl, verify_error_403 secret body, ?_⟩
  intro secret2 body2 h hne hok
  obtain ⟨ps, hps, hv1⟩ := (verify_ok_iff secret body h).mp hok
  rcases h2 : verify_signature secret2 body2 (some h) with e2 | u
  · exact ⟨e2, rfl, verify_error_403 secret2 body2 (some h) e2 h2⟩
  · cases u
    obtain ⟨ps2, hps2, hv12⟩ := (verify_ok_iff secret2 body2 h).mp h2
    rw [hps] at hps2
    cases hps2
    rw [hv1] at hv12
    exact absurd (Option.some.inj hv12) (Ne.symm hne)

/-- C1 witness: the fixture header is accepted for `("whsec", "hello")`, and
flipping one bit of the secret (to `"whseb"`) makes the same header a 403
rejection. -/
theorem C1_witness :
    verify_signature wSecret bodyHello (some headerHello) = .ok () ∧
    ∃ e, verify_signature wSecretFlipped bodyHello (some headerHello) = .error e ∧
      e.status = 403 := by
  constructor
  · rfl
  · exact (C1_verify_signature_spec wSecret bodyHello).2.2.2 wSecretFlipped bodyHello
      headerHello (by decide) (by rfl)

/-! ## C9 and C2: JSON parsing versus signature verification -/

/-- C9: for every request body that is not valid JSON (`parsed = none` models
`json.loads` failing inside `await request.json()`), the handler hits the
`except json.JSONDecodeError` clause whose name `json` is unbound in
`main.py`, so an unhandled `NameError` (a 500) escapes — whatever the
signature header, secret, oracle and registry — and the registry is
untouched. -/
theorem C9_invalid_json_name_error (secret body : List Nat) (header : Option String)
    (fetch : String → Except String Unit) (jobs : Registry) :
    cloudconvert_webhook secret body none header fetch jobs =
      (.serverError "NameError: name json is not defined", jobs) := rfl

/-- C2 counterexample: the body `"x"` is not valid JSON; its delivery has a
failing (absent) signature header, yet the response is the unhandled
`NameError` server error, not a 403 `HTTPException` — the payload is parsed
before the signature is checked. -/
theorem C2_counterexample :
    cloudconvert_webhook wSecret (strBytes "x") none none fetchOk [] =
      (.serverError "NameError: name json is not defined", []) := rfl

/-- C2 (amended): the JSON body is parsed before verification, but for every
delivery whose body parses as JSON and whose signature fails verification,
the response is exactly the 403 authentication error and the registry is
unchanged — no payload-dependent action or state change occurs. -/
theorem C2_amended_reject_before_action (secret body : List Nat) (payload : JVal)
    (header : Option String) (fetch : String → Except String Unit) (jobs : Registry)
    (e : HttpError) (hv : verify_signature secret body header = .error e) :
    cloudconvert_webhook secret body (some payload) header fetch jobs =
      (.httpError e, jobs) ∧ e.status = 403 := by
  refine ⟨?_, verify_error_403 secret body header e hv⟩
  simp only [cloudconvert_webhook, hv]

/-- C2 witness: a valid-JSON delivery with no signature header is rejected
with the 403 and leaves the registry unchanged. -/
theorem C2_witness :
    cloudconvert_webhook wSecret bodyFailed (some payloadFailed) none fetchOk regJ1 =
      (.httpError ⟨403, "No signature header"⟩, regJ1) :=
  (C2_amended_reject_before_action wSecret bodyFailed payloadFailed none fetchOk regJ1
    ⟨403, "No signature header"⟩ rfl).1

/-! ## C6: unknown or missing job identifiers are swallowed -/

/-- The id values the handler answers with a plain 200 for: falsy values
(`if not job_id`, covering an absent `id` read as `None`) and hashable
values that are not a key of `jobs` (`job_id not in jobs`; only a string
can equal a string key, and numbers and booleans never do). -/
def swallowedId (jobs : Registry) (v : JVal) : Bool :=
  v.isFalsy ||
  (match v with
   | .jstr s => (dictGet jobs s).isNone
   | .jnum _ => true
   | .jbool _ => true
   | .jnull => true
   | _ => false)

/-- C6: an authenticated delivery whose object-shaped payload lacks a job
identifier (or carries a falsy one) or carries an identifier that is not a
key of the registry gets the 200 `ok` response and leaves the registry
completely unchanged. -/
theorem C6_unknown_job_swallowed (secret body : List Nat) (header : Option String)
    (fetch : String → Except String Unit) (jobs : Registry)
    (fields jfields : List (String × JVal))
    (hv : verify_signature secret body header = .ok ())
    (hjob : (dictGet fields "job").getD (.jobj []) = .jobj jfields)
    (hid : swallowedId jobs ((dictGet jfields "id").getD .jnull) = true) :
    cloudconvert_webhook secret body (some (.jobj fields)) header fetch jobs =
      (.ok200, jobs) := by
  simp only [cloudconvert_webhook, hv, hjob]
  rcases hidv : (dictGet jfields "id").getD .jnull with _ | b | n | s | es | fs <;>
    rw [hidv] at hid
  · rfl
  · cases b <;> rfl
  · by_cases hn : n = 0
    · simp [JVal.isFalsy, hn]
    · simp [JVal.isFalsy, hn]
  · by_cases hs : s = ""
    · simp [JVal.isFalsy, hs]
    · rcases hdg : dictGet jobs s with _ | w
      · simp [JVal.isFalsy, hs, hdg]
      · exfalso
        simp [swallowedId, JVal.isFalsy, hs, hdg] at hid
  · rcases es with _ | ⟨e0, es⟩
    · simp [JVal.isFalsy]
    · simp [swallowedId, JVal.isFalsy] at hid
  · rcases fs with _ | ⟨f0, fs⟩
    · simp [JVal.isFalsy]
    · simp [swallowedId, JVal.isFalsy] at hid

/-- C6 witness: an authenticated delivery for the unknown id `"ghost"`
against a registry holding only `"J1"` responds 200 and changes nothing. -/
theorem C6_witness :
    cloudconvert_webhook wSecret bodyUnknown (some payloadUnknown) (some headerUnknown)
      fetchOk regJ1 = (.ok200, regJ1) :=
  C6_unknown_job_swallowed wSecret bodyUnknown (some headerUnknown) fetchOk regJ1
    [("event", .jstr "job.finished"), ("job", .jobj [("id", .jstr "ghost")])]
    [("id", .jstr "ghost")] rfl rfl rfl

/-! ## C5: failures in the finished branch are recovered locally -/

/-- C5: on an authenticated `job.finished` delivery for a known job, if
extraction of the export task's url/filename or the fetch of the url fails
(any `.error` of `finished_step`), the handler does not propagate the error:
it marks the job failed with the descriptive `"Download failed: ..."`
message and still responds 200 `ok`. -/
theorem C5_finished_failure_marks_failed (secret body : List Nat) (header : Option String)
    (fetch : String → Except String Unit) (jobs : Registry)
    (fields jfields : List (String × JVal)) (jid : String) (rec : JobRec) (msg : String)
    (hv : verify_signature secret body header = .ok ())
    (hjob : (dictGet fields "job").getD (.jobj []) = .jobj jfields)
    (hid : (dictGet jfields "id").getD .jnull = .jstr jid)
    (hne : jid ≠ "")
    (hknown : dictGet jobs jid = some rec)
    (hevent : eventName fields = some "job.finished")
    (hfail : finished_step (.jobj jfields) fetch = .error msg) :
    cloudconvert_webhook secret body (some (.jobj fields)) header fetch jobs =
      (.ok200, rset jobs jid
        { rec with status := "failed",
                   message := some (.jstr ("Download failed: " ++ msg)) }) := by
  simp [cloudconvert_webhook, hv, hjob, hid, hknown, hevent, hfail, JVal.isFalsy, hne]

/-- C5 witness: an authenticated `job.finished` delivery for the known job
`"J1"` with an empty task list makes extraction fail; the job is marked
failed with the descriptive message and the response is still 200. -/
theorem C5_witness :
    cloudconvert_webhook wSecret bodyBadTasks (some payloadBadTasks) (some headerBadTasks)
      fetchOk regJ1 =
      (.ok200, rset regJ1 "J1"
        { status := "failed", progress := 0, filename := "a.pdf",
          message := some (.jstr
            "Download failed: No finished export task found in job data") }) :=
  C5_finished_failure_marks_failed wSecret bodyBadTasks (some headerBadTasks) fetchOk regJ1
    [("event", .jstr "job.finished"), ("job", .jobj badTasksJobFields)] badTasksJobFields
    "J1" { status := "processing", progress := 0, filename := "a.pdf" }
    "No finished export task found in job data"
    rfl rfl rfl (by decide) rfl rfl rfl

/-! ## C4: the other-events branch is a no-op, never a progress update -/

/-- C4 counterexample: an authenticated delivery for the known job `"J1"`
whose event is `"task.progress"` and whose payload carries the progress
percentage 55 leaves the registry completely unchanged — the record's
progress stays 0, the claimed progress update does not happen (the `else`
branch of the handler is `pass`). -/
theorem C4_counterexample :
    dictGet progressJobFields "progress" = some (.jnum 55) ∧
    (dictGet regJ1 "J1").map JobRec.progress = some 0 ∧
    cloudconvert_webhook wSecret bodyProgress (some payloadProgress) (some headerProgress)
      fetchOk regJ1 = (.ok200, regJ1) :=
  ⟨rfl, rfl, rfl⟩

/-- C4 (amended): for every authenticated delivery addressed to a known job
whose event is neither `job.finished` nor `job.failed`, the handler responds
200 and leaves the job record (indeed the whole registry) unchanged, whether
or not a progress percentage is present in the payload. -/
theorem C4_amended_other_events_noop (secret body : List Nat) (header : Option String)
    (fetch : String → Except String Unit) (jobs : Registry)
    (fields jfields : List (String × JVal)) (jid : String) (rec : JobRec)
    (hv : verify_signature secret body header = .ok ())
    (hjob : (dictGet fields "job").getD (.jobj []) = .jobj jfields)
    (hid : (dictGet jfields "id").getD .jnull = .jstr jid)
    (hne : jid ≠ "")
    (hknown : dictGet jobs jid = some rec)
    (hevent1 : eventName fields ≠ some "job.finished")
    (hevent2 : eventName fields ≠ some "job.failed") :
    cloudconvert_webhook secret body (some (.jobj fields)) header fetch jobs =
      (.ok200, jobs) := by
  simp [cloudconvert_webhook, hv, hjob, hid, hknown, JVal.isFalsy, hne, hevent1, hevent2]

/-- C4 witness: the progress-event fixture delivery is answered 200 with the
registry unchanged. -/
theorem C4_witness :
    cloudconvert_webhook wSecret bodyProgress (some payloadProgress) (some headerProgress)
      fetchOk regJ1 = (.ok200, regJ1) :=
  C4_amended_other_events_noop wSecret bodyProgress (some headerProgress) fetchOk regJ1
    [("event", .jstr "task.progress"), ("job", .jobj progressJobFields)] progressJobFields
    "J1" { status := "processing", progress := 0, filename := "a.pdf" }
    rfl rfl rfl (by decide) rfl (by decide) (by decide)

/-! ## Registry update lemmas -/

theorem dictGet_map_none (r : Registry) (k : String) (v : JobRec)
    (h : dictGet r k = none) :
    dictGet (r.map (fun p => if p.1 = k then (k, v) else p)) k = none := by
  induction r with
  | nil => rfl
  | cons p rest ih =>
    simp only [dictGet] at h
    rcases hr : dictGet rest k with _ | w
    · simp only [hr] at h
      by_cases hpk : p.1 = k
      · rw [if_pos hpk] at h; cases h
      · simp only [List.map_cons, dictGet, ih hr]
        rw [if_neg hpk]
        simp [hpk]
    · simp only [hr] at h; cases h

theorem dictGet_map_some (r : Registry) (k : String) (v w : JobRec)
    (h : dictGet r k = some w) :
    dictGet (r.map (fun p => if p.1 = k then (k, v) else p)) k = some v := by
  induction r generalizing w with
  | nil => cases h
  | cons p rest ih =>
    simp only [dictGet] at h
    rcases hr : dictGet rest k with _ | w2
    · simp only [hr] at h
      by_cases hpk : p.1 = k
      · simp only [List.map_cons, dictGet, dictGet_map_none rest k v hr]
        rw [if_pos hpk]
        simp
      · rw [if_neg hpk] at h; cases h
    · simp only [List.map_cons, dictGet, ih w2 hr]

theorem dictGet_map_other (r : Registry) (k : String) (v : JobRec) (j : String)
    (hj : j ≠ k) :
    dictGet (r.map (fun p => if p.1 = k then (k, v) else p)) j = dictGet r j := by
  induction r with
  | nil => rfl
  | cons p rest ih =>
    simp only [List.map_cons, dictGet, ih]
    rcases dictGet rest j with _ | w2
    · by_cases hpk : p.1 = k
      · rw [if_pos hpk, hpk]
        simp [Ne.symm hj, hpk]
      · rw [if_neg hpk]
    · rfl

theorem dictGet_append_self (r : Registry) (k : String) (v : JobRec) :
    dictGet (r ++ [(k, v)]) k = some v := by
  induction r with
  | nil => simp [dictGet]
  | cons p rest ih => simp [dictGet, ih]

theorem dictGet_append_other (r : Registry) (k : String) (v : JobRec) (j : String)
    (hj : j ≠ k) :
    dictGet (r ++ [(k, v)]) j = dictGet r j := by
  induction r with
  | nil => simp [dictGet, Ne.symm hj]
  | cons p rest ih => simp [dictGet, ih]

/-- Lookup of the updated key after `jobs[k] = v`. -/
theorem dictGet_rset_self (r : Registry) (k : String) (v : JobRec) :
    dictGet (rset r k v) k = some v := by
  unfold rset
  rcases hr : dictGet r k with _ | w
  · simp only [hr, Option.isSome_none, Bool.false_eq_true, if_false]
    exact dictGet_append_self r k v
  · simp only [hr, Option.isSome_some, if_true]
    exact dictGet_map_some r k v w hr

/-- Lookup of any other key after `jobs[k] = v`. -/
theorem dictGet_rset_other (r : Registry) (k : String) (v : JobRec) (j : String)
    (hj : j ≠ k) :
    dictGet (rset r k v) j = dictGet r j := by
  unfold rset
  rcases hr : dictGet r k with _ | w
  · simp only [hr, Option.isSome_none, Bool.false_eq_true, if_false]
    exact dictGet_append_other r k v j hj
  · simp only [hr, Option.isSome_some, if_true]
    exact dictGet_map_other r k v j hj

/-! ## C3: terminal statuses and the shape of registry updates -/

/-- A terminal job status. -/
def TerminalStatus (s : String) : Prop := s = "finished" ∨ s = "failed"

/-- A webhook delivery either leaves the registry unchanged or overwrites one
existing key with a record whose status is terminal; in particular it never
writes `"processing"`. -/
theorem webhook_registry_cases (secret body : List Nat) (parsed : Option JVal)
    (header : Option String) (fetch : String → Except String Unit) (r : Registry) :
    (cloudconvert_webhook secret body parsed header fetch r).2 = r ∨
    ∃ jid v, (cloudconvert_webhook secret body parsed header fetch r).2 = rset r jid v ∧
      TerminalStatus v.status := by
  unfold cloudconvert_webhook
  repeat' (first | split | dsimp only)
  all_goals
    first
      | exact Or.inl rfl
      | exact Or.inl trivial
      | exact Or.inr ⟨_, _, rfl, Or.inl rfl⟩
      | exact Or.inr ⟨_, _, rfl, Or.inr rfl⟩

/-- An upload either leaves the registry unchanged or writes the fresh
initial record under the id issued by the collaborator. -/
theorem convert_registry_cases (filename : String) (sizeBytes maxMB : Nat)
    (create_job : Except String String) (r : Registry) :
    (convert_file filename sizeBytes maxMB create_job r).2.2 = r ∨
    ∃ jid, create_job = .ok jid ∧
      (convert_file filename sizeBytes maxMB create_job r).2.2 =
        rset r jid { status := "processing", progress := 0, filename := filename } := by
  unfold convert_file
  rcases hval : validate_file filename sizeBytes maxMB with e | u
  · simp only [hval]
    first | exact Or.inl rfl | exact Or.inl trivial
  · simp only [hval]
    rcases hc : create_job with msg | jid
    · simp only [hc]
      first | exact Or.inl rfl | exact Or.inl trivial
    · simp only [hc]
      exact Or.inr ⟨jid, rfl, rfl⟩

/-- C3 (amended): along every trace of uploads and webhook deliveries in
which the collaborator issues only fresh job ids, a job whose record is in a
terminal state (`finished` or `failed`) is never again observed as
`processing`: its status stays terminal.  (The original claim additionally
forbade transitions between the two terminal states; the counterexample
shows a duplicate terminal delivery can flip `failed` to `finished`.) -/
theorem C3_amended_terminal_stays_terminal (maxMB : Nat) (secret : List Nat) :
    ∀ (ops : List Op) (r : Registry) (j : String) (rec : JobRec),
      FreshTrace maxMB secret r ops →
      dictGet r j = some rec → TerminalStatus rec.status →
      ∃ rec2, dictGet (run maxMB secret r ops) j = some rec2 ∧
        rec2.status ≠ "processing" ∧ TerminalStatus rec2.status := by
  intro ops
  induction ops with
  | nil =>
    intro r j rec _ hj ht
    refine ⟨rec, hj, ?_, ht⟩
    rcases ht with h | h <;> rw [h] <;> decide
  | cons op rest ih =>
    intro r j rec hf hj ht
    obtain ⟨hop, hrest⟩ := hf
    have hstep : ∃ rec1, dictGet (step maxMB secret r op) j = some rec1 ∧
        TerminalStatus rec1.status := by
      rcases op with ⟨fn, sz, cj⟩ | ⟨body, parsed, header, fetch⟩
      · rcases convert_registry_cases fn sz maxMB cj r with hsame | ⟨jid, hcj, hres⟩
        · refine ⟨rec, ?_, ht⟩
          show dictGet (convert_file fn sz maxMB cj r).2.2 j = some rec
          rw [hsame]; exact hj
        · simp only [hcj] at hop
          have hne : j ≠ jid := by
            intro he
            rw [he, hop] at hj
            cases hj
          refine ⟨rec, ?_, ht⟩
          show dictGet (convert_file fn sz maxMB cj r).2.2 j = some rec
          rw [hres, dictGet_rset_other r jid _ j hne]
          exact hj
      · rcases webhook_registry_cases secret body parsed header fetch r with
          hsame | ⟨jid, v, hres, hterm⟩
        · refine ⟨rec, ?_, ht⟩
          show dictGet (cloudconvert_webhook secret body parsed header fetch r).2 j = some rec
          rw [hsame]; exact hj
        · by_cases hje : j = jid
          · subst hje
            refine ⟨v, ?_, hterm⟩
            show dictGet (cloudconvert_webhook secret body parsed header fetch r).2 j = some v
            rw [hres, dictGet_rset_self]
          · refine ⟨rec, ?_, ht⟩
            show dictGet (cloudconvert_webhook secret body parsed header fetch r).2 j = some rec
            rw [hres, dictGet_rset_other r jid v j hje]
            exact hj
    obtain ⟨rec1, h1, ht1⟩ := hstep
    exact ih (step maxMB secret r op) j rec1 hrest h1 ht1

/-- The trace of the C3 counterexample: create job `"J1"`, deliver its
`job.failed` event, then deliver a (duplicate, retried) `job.finished` event
with a well-formed export task. -/
def opUploadJ1 : Op := .upload "a.pdf" 5 (.ok "J1")

def opFailedJ1 : Op := .webhook bodyFailed (some payloadFailed) (some headerFailed) fetchOk

def opFinishedJ1 : Op :=
  .webhook bodyFinished (some payloadFinished) (some headerFinished) fetchOk

/-- C3 counterexample: after upload and an authenticated `job.failed`
delivery the job is in the terminal state `failed`; one further
authenticated `job.finished` delivery moves it to `finished` — a transition
between the two terminal states, which the claim asserts never occurs. -/
theorem C3_counterexample :
    (dictGet (run 20 wSecret [] [opUploadJ1, opFailedJ1]) "J1").map JobRec.status =
      some "failed" ∧
    (dictGet (run 20 wSecret [] [opUploadJ1, opFailedJ1, opFinishedJ1]) "J1").map
      JobRec.status = some "finished" := ⟨rfl, rfl⟩

/-- The record and one-job registry of the C3 witness. -/
def recFinished : JobRec :=
  { status := "finished", progress := 100, filename := "a.pdf", output := some "outputs/x.pdf" }

def regFinished : Registry := [("J1", recFinished)]

/-- C3 witness: a finished job stays terminal across a further (duplicate)
authenticated `job.failed` delivery. -/
theorem C3_witness :
    ∃ rec2, dictGet (run 20 wSecret regFinished [opFailedJ1]) "J1" = some rec2 ∧
      rec2.status ≠ "processing" ∧ TerminalStatus rec2.status :=
  C3_amended_terminal_stays_terminal 20 wSecret [opFailedJ1] regFinished "J1" recFinished
    ⟨trivial, trivial⟩ rfl (Or.inl rfl)

/-! ## C7: invalid uploads are rejected before any side effect -/

/-- C7: an upload whose filename extension (last dot-separated segment,
lowercased) is not in the allow-list, or whose size exceeds the configured
megabyte ceiling, is rejected with a 400 client error before the local write
and before the outbound collaborator call, and the registry is unchanged. -/
theorem C7_invalid_upload_rejected (filename : String) (sizeBytes maxMB : Nat)
    (create_job : Except String String) (jobs : Registry)
    (hbad : pyLower ((pySplit '.' filename).getLastD "") ∉ ALLOWED_EXTENSIONS ∨
            sizeBytes > maxMB * 1048576) :
    ∃ e : HttpError, e.status = 400 ∧
      convert_file filename sizeBytes maxMB create_job jobs =
        (.clientError e, ⟨false, false⟩, jobs) := by
  unfold convert_file validate_file
  by_cases hext : pyLower ((pySplit '.' filename).getLastD "") ∈ ALLOWED_EXTENSIONS
  · rcases hbad with hbad2 | hsize
    · exact absurd hext hbad2
    · refine ⟨⟨400, "File too large"⟩, rfl, ?_⟩
      rw [if_neg (not_not_intro hext), if_pos hsize]
  · refine ⟨⟨400, "Unsupported file type"⟩, rfl, ?_⟩
    rw [if_pos hext]

/-- C7 witness: uploading `evil.exe` is rejected with a 400, with no local
write, no outbound call, and the registry untouched. -/
theorem C7_witness :
    ∃ e : HttpError, e.status = 400 ∧
      convert_file "evil.exe" 5 20 (.ok "J9") regJ1 =
        (.clientError e, ⟨false, false⟩, regJ1) :=
  C7_invalid_upload_rejected "evil.exe" 5 20 (.ok "J9") regJ1 (Or.inl (by decide))

/-! ## C8: the download gate -/

/-- C8: `GET /download/{job_id}` answers 404 (`notFound`) exactly unless the
registry holds the job with status exactly `finished` and the recorded
output path exists on local storage at request time; in particular a job
still `processing` always gets 404, whatever the filesystem contains. -/
theorem C8_download_gate (jobs : Registry) (fsExists : String → Bool) (job_id : String) :
    ((∃ d, download jobs fsExists job_id = .notFound d) ↔
      ¬ ∃ rec, dictGet jobs job_id = some rec ∧ rec.status = "finished" ∧
          fsExists (rec.output.getD "") = true)
    ∧ (∀ rec, dictGet jobs job_id = some rec → rec.status = "processing" →
        download jobs fsExists job_id = .notFound "File not ready") := by
  constructor
  · rcases hdg : dictGet jobs job_id with _ | job
    · simp [download, hdg]
    · by_cases hst : job.status = "finished"
      · by_cases hfs : fsExists (job.output.getD "") = true
        · simp [download, hdg, hst, hfs]
        · simp [download, hdg, hst, hfs]
      · simp [download, hdg, hst]
  · intro rec hrec hproc
    simp [download, hrec, hproc]

/-- C8 witness: downloading the still-processing job `"J1"` is 404 even on a
filesystem where every path exists. -/
theorem C8_witness :
    download regJ1 (fun _ => true) "J1" = .notFound "File not ready" :=
  (C8_download_gate regJ1 (fun _ => true) "J1").2
    { status := "processing", progress := 0, filename := "a.pdf" } rfl rfl

/-! ## C10: dotless filenames and the extension rule -/

/-- Splitting a character list that does not contain the separator yields
the whole list as the single segment. -/
theorem splitChars_no_sep (sep : Char) (l : List Char) (h : sep ∉ l) :
    splitChars sep l = [l] := by
  induction l with
  | nil => rfl
  | cons c rest ih =>
    have hc : ¬ c = sep := fun he => h (by rw [he]; exact List.mem_cons_self sep rest)
    have hr : sep ∉ rest := fun hm => h (List.mem_cons_of_mem c hm)
    simp only [splitChars, ih hr]
    rw [if_neg hc]

/-- Python `split` of a string not containing the separator is the whole
string. -/
theorem pySplit_no_sep (sep : Char) (s : String) (h : sep ∉ s.data) :
    pySplit sep s = [s] := by
  unfold pySplit
  rw [splitChars_no_sep sep s.data h]
  rfl

/-- C10: `validate_file` takes the last dot-separated segment of the
filename, lowercased, as the extension, so a filename with no dot at all is
accepted (size permitting) exactly when the whole lowercased name is itself
an allow-listed extension — dot-prefixed extensions are not required. -/
theorem C10_dotless_filename_accepted (filename : String) (sizeBytes maxMB : Nat)
    (hnodot : '.' ∉ filename.data) (hsize : ¬ sizeBytes > maxMB * 1048576) :
    validate_file filename sizeBytes maxMB = .ok () ↔
      pyLower filename ∈ ALLOWED_EXTENSIONS := by
  unfold validate_file
  rw [pySplit_no_sep '.' filename hnodot]
  constructor
  · intro hok
    by_cases hmem : pyLower filename ∈ ALLOWED_EXTENSIONS
    · exact hmem
    · simp only [List.getLastD] at hok
      simp [hmem] at hok
  · intro hmem
    simp only [List.getLastD]
    simp [hmem, hsize]

/-- C10 witness: the file named exactly `pdf` (no dot anywhere) passes
validation. -/
theorem C10_witness : validate_file "pdf" 0 20 = .ok () :=
  (C10_dotless_filename_accepted "pdf" 0 20 (by decide) (by decide)).mpr (by decide)

end FilerApi
